import Mathlib

/-!
Verification of the memcached binary-protocol client library.

The definitions below are a shallow embedding of the Rust sources:
machine integers become Nat with explicit wrap-around where the source
performs fixed-width arithmetic, the byte stream becomes a List Nat of
bytes consumed functionally, and fallible code returns Except.
-/

/-- Errors of src/error.rs, ClientError enum. -/
inductive ClientError where
  | KeyTooLong
  | Error (s : String)
  | ConnectionsIsEmpty
  deriving DecidableEq

/-- Errors of src/error.rs, ServerError enum. -/
inductive ServerError where
  | BadMagic (b : Nat)
  | BadResponse (s : String)
  | Error (s : String)
  deriving DecidableEq

/-- Errors of src/error.rs, CommandError enum. -/
inductive CommandError where
  | KeyExists
  | KeyNotFound
  | ValueTooLarge
  | InvalidArguments
  | AuthenticationRequired
  | IncrOrDecrOnNonNumericValue
  | Unknown (code : Nat)
  | InvalidCommand
  deriving DecidableEq

/-- Error kinds of the external bincode crate, as far as this development needs them. -/
inductive BincodeErrorKind where
  | InvalidBoolEncoding (b : Nat)
  | Eof
  | Custom (s : String)
  deriving DecidableEq

/-- Errors of src/error.rs, ParseError enum (payloads coarsened to the data the
theorems inspect). -/
inductive ParseError where
  | Bool
  | Int
  | Float
  | StringUtf8
  | Str
  | Url
  | Bincode (k : BincodeErrorKind)
  deriving DecidableEq

/-- Errors of src/error.rs, MemcachedError enum (the tls-gated variants are compiled
out in the default configuration and omitted). -/
inductive MemcachedError where
  | IOError (msg : String)
  | ClientError (e : ClientError)
  | ServerError (e : ServerError)
  | CommandError (e : CommandError)
  | ParseError (e : ParseError)
  | PoolError (msg : String)
  deriving DecidableEq

/-- From u16 for CommandError, src/error.rs lines 111-123: the status table. -/
def CommandError.fromStatus (status : Nat) : CommandError :=
  if status = 0x1 then .KeyNotFound
  else if status = 0x2 then .KeyExists
  else if status = 0x3 then .ValueTooLarge
  else if status = 0x4 then .InvalidArguments
  else if status = 0x6 then .IncrOrDecrOnNonNumericValue
  else if status = 0x20 then .AuthenticationRequired
  else .Unknown status

/-- PacketHeader, src/protocol/binary_packet.rs. Fields are Nats carrying the
u8/u16/u32/u64 values; the field named opq models the header field called
opaque in the source. -/
structure PacketHeader where
  magic : Nat
  opcode : Nat
  keyLength : Nat
  extrasLength : Nat
  dataType : Nat
  vbucketIdOrStatus : Nat
  totalBodyLength : Nat
  opq : Nat
  cas : Nat
  deriving DecidableEq

/-- Response, src/protocol/binary_packet.rs: header plus key, extras and value bytes. -/
structure Response where
  header : PacketHeader
  key : List Nat
  extras : List Nat
  value : List Nat
  deriving DecidableEq

/-- OK_STATUS constant, src/protocol/binary_packet.rs line 10. -/
def OK_STATUS : Nat := 0x0

/-- Response::err, src/protocol/binary_packet.rs lines 105-112: status 0 succeeds,
any other status becomes the CommandError given by the From u16 table. -/
def Response.err (r : Response) : Except MemcachedError Response :=
  if r.header.vbucketIdOrStatus = OK_STATUS then .ok r
  else .error (.CommandError (.fromStatus r.header.vbucketIdOrStatus))

/-- Big-endian encoding of n into w bytes (the cast to the w-byte width drops
high bits, as the Rust integer casts do). -/
def toBytesBE : Nat → Nat → List Nat
  | 0, _ => []
  | w + 1, n => toBytesBE w (n / 256) ++ [n % 256]

/-- Big-endian value of a byte list, as byteorder BigEndian reads it. -/
def fromBytesBE (l : List Nat) : Nat :=
  l.foldl (fun a b => a * 256 + b) 0

/-- Stream::read_exact, src/stream/mod.rs: take n bytes off the stream or fail
with the std io UnexpectedEof error. -/
def readExactBytes (n : Nat) (s : List Nat) :
    Except MemcachedError (List Nat × List Nat) :=
  if n ≤ s.length then .ok (s.take n, s.drop n)
  else .error (.IOError ("failed to fill whole buffer"))

/-- Stream::read_u8 / read_u16 / read_u32 / read_u64, src/stream/mod.rs: read w
bytes and decode them big-endian. -/
def readUBE (w : Nat) (s : List Nat) : Except MemcachedError (Nat × List Nat) :=
  match readExactBytes w s with
  | .error e => .error e
  | .ok (b, rest) => .ok (fromBytesBE b, rest)

/-- PacketHeader::read, src/protocol/binary_packet.rs lines 77-93: the first byte
must be the response magic 0x81, then the remaining fields are read big-endian. -/
def PacketHeader.read (s : List Nat) :
    Except MemcachedError (PacketHeader × List Nat) := do
  let (magic, s) ← readUBE 1 s
  if magic ≠ 0x81 then
    .error (.ServerError (.BadMagic magic))
  else do
    let (opcode, s) ← readUBE 1 s
    let (keyLength, s) ← readUBE 2 s
    let (extrasLength, s) ← readUBE 1 s
    let (dataType, s) ← readUBE 1 s
    let (vbucketIdOrStatus, s) ← readUBE 2 s
    let (totalBodyLength, s) ← readUBE 4 s
    let (opq, s) ← readUBE 4 s
    let (cas, s) ← readUBE 8 s
    .ok ({ magic, opcode, keyLength, extrasLength, dataType,
           vbucketIdOrStatus, totalBodyLength, opq, cas }, s)

/-- Wrapping u32 subtraction a - b: the semantics of the release-profile Rust
subtraction used at src/protocol/binary_packet.rs line 126 (the debug profile
panics on the same underflow). -/
def sub32 (a b : Nat) : Nat :=
  (a % 2 ^ 32 + 2 ^ 32 - b % 2 ^ 32) % 2 ^ 32

/-- parse_response, src/protocol/binary_packet.rs lines 115-137: read the header,
then extras_length bytes, then key_length bytes, then value bytes whose count is
the u32 expression total_body_length - key_length - extras_length.  The source
carries a TODO admitting the missing check total_body_length ≥ extras_length +
key_length; no such check is performed. -/
def parse_response (s : List Nat) :
    Except MemcachedError (Response × List Nat) := do
  let (header, s) ← PacketHeader.read s
  let (extras, s) ← readExactBytes header.extrasLength s
  let (key, s) ← readExactBytes header.keyLength s
  let (value, s) ←
    readExactBytes (sub32 (sub32 header.totalBodyLength header.keyLength)
      header.extrasLength) s
  .ok ({ header, key, extras, value }, s)

/-- The 25 bytes of a syntactically well-formed response header whose
total_body_length (0) is smaller than key_length (1) + extras_length (0),
followed by the single key byte. -/
def c1Bytes : List Nat :=
  [0x81, 0, 0, 1, 0, 0, 0, 0, 0, 0, 0, 0, 0, 0, 0, 0,
   0, 0, 0, 0, 0, 0, 0, 0, 65]

/-- The header encoded by c1Bytes. -/
def c1Header : PacketHeader :=
  { magic := 0x81, opcode := 0, keyLength := 1, extrasLength := 0,
    dataType := 0, vbucketIdOrStatus := 0, totalBodyLength := 0,
    opq := 0, cas := 0 }

deriving instance DecidableEq for Except

set_option maxRecDepth 8000

/-- C1: refuted by the code.  parse_response performs the u32 subtraction
total_body_length - key_length - extras_length with no preceding check (the
source marks the missing check with a TODO).  On the well-formed 25-byte input
c1Bytes the accepted header violates total_body_length ≥ extras_length +
key_length, the subtraction underflows and wraps to 2^32 - 1, and the parser
then fails with a transport end-of-file error rather than the malformed-response
error the claim requires. -/
theorem c1_parse_response_no_underflow_check :
    PacketHeader.read c1Bytes = .ok (c1Header, [65]) ∧
    c1Header.totalBodyLength < c1Header.keyLength + c1Header.extrasLength ∧
    sub32 (sub32 c1Header.totalBodyLength c1Header.keyLength)
      c1Header.extrasLength = 2 ^ 32 - 1 ∧
    parse_response c1Bytes = .error (.IOError ("failed to fill whole buffer")) := by
  refine ⟨by decide, by decide, by decide, by decide⟩

/-- C3: confirmed.  Response::err succeeds exactly on status 0, every non-zero
status is translated through the From u16 table, and that table is
1 ↦ KeyNotFound, 2 ↦ KeyExists, 3 ↦ ValueTooLarge, 4 ↦ InvalidArguments,
6 ↦ IncrOrDecrOnNonNumericValue, 0x20 ↦ AuthenticationRequired, and Unknown on
every other status. -/
theorem c3_status_table (r : Response) :
    (Response.err r = .ok r ↔ r.header.vbucketIdOrStatus = 0) ∧
    (∀ s, r.header.vbucketIdOrStatus = s → s ≠ 0 →
      Response.err r = .error (.CommandError (.fromStatus s))) ∧
    CommandError.fromStatus 0x1 = .KeyNotFound ∧
    CommandError.fromStatus 0x2 = .KeyExists ∧
    CommandError.fromStatus 0x3 = .ValueTooLarge ∧
    CommandError.fromStatus 0x4 = .InvalidArguments ∧
    CommandError.fromStatus 0x6 = .IncrOrDecrOnNonNumericValue ∧
    CommandError.fromStatus 0x20 = .AuthenticationRequired ∧
    (∀ s, s ≠ 0x1 → s ≠ 0x2 → s ≠ 0x3 → s ≠ 0x4 → s ≠ 0x6 → s ≠ 0x20 →
      CommandError.fromStatus s = .Unknown s) := by
  refine ⟨?_, ?_, by decide, by decide, by decide, by decide, by decide, by decide, ?_⟩
  · unfold Response.err OK_STATUS
    constructor
    · intro h
      by_contra hs
      simp [hs] at h
    · intro h
      simp [h]
  · intro s hs hns
    unfold Response.err OK_STATUS
    rw [hs]
    simp [hns]
  · intro s h1 h2 h3 h4 h6 h32
    unfold CommandError.fromStatus
    simp [h1, h2, h3, h4, h6, h32]

/-- A concrete response with status 0x5: Response::err refuses it with
Unknown 5, witnessing c3_status_table. -/
def c3Resp : Response :=
  { header := { magic := 0x81, opcode := 0, keyLength := 0, extrasLength := 0,
                dataType := 0, vbucketIdOrStatus := 5, totalBodyLength := 0,
                opq := 0, cas := 0 },
    key := [], extras := [], value := [] }

/-- Witness for C3: the theorem applied to the concrete response c3Resp. -/
theorem c3_status_table_witness :
    Response.err c3Resp = .error (.CommandError (.fromStatus 5)) ∧
    CommandError.fromStatus 5 = .Unknown 5 := by
  refine ⟨(c3_status_table c3Resp).2.1 5 (by decide) (by decide), ?_⟩
  exact (c3_status_table c3Resp).2.2.2.2.2.2.2.2 5 (by decide) (by decide)
    (by decide) (by decide) (by decide) (by decide)

/-- Cursor::new(extras).read_u32::<BigEndian>() as used by the response parsers in
src/protocol/binary_packet.rs: the first four extras bytes big-endian, or the std
io UnexpectedEof error when extras is shorter. -/
def readU32Flags (extras : List Nat) : Except MemcachedError Nat :=
  if 4 ≤ extras.length then .ok (fromBytesBE (extras.take 4))
  else .error (.IOError ("failed to fill whole buffer"))

/-- parse_get_response, src/protocol/binary_packet.rs lines 156-176.  The leading
parse_response call is factored out as the argument pr, and the generic
FromMemcachedValueExt conversion as the argument decode. -/
def parse_get_response {α : Type}
    (decode : List Nat → Nat → Option Nat → Except MemcachedError α)
    (pr : Except MemcachedError Response) : Except MemcachedError (Option α) :=
  match pr with
  | .error e => .error e
  | .ok r =>
    match r.err with
    | .ok r2 =>
      match readU32Flags r2.extras with
      | .error e => .error e
      | .ok flags =>
        match decode r2.value flags (some r2.header.cas) with
        | .error e => .error e
        | .ok v => .ok (some v)
    | .error (.CommandError .KeyNotFound) => .ok none
    | .error e => .error e

/-- parse_delete_response, src/protocol/binary_packet.rs lines 203-209. -/
def parse_delete_response (pr : Except MemcachedError Response) :
    Except MemcachedError Bool :=
  match pr with
  | .error e => .error e
  | .ok r =>
    match r.err with
    | .ok _ => .ok true
    | .error (.CommandError .KeyNotFound) => .ok false
    | .error e => .error e

/-- parse_touch_response, src/protocol/binary_packet.rs lines 216-222. -/
def parse_touch_response (pr : Except MemcachedError Response) :
    Except MemcachedError Bool :=
  match pr with
  | .error e => .error e
  | .ok r =>
    match r.err with
    | .ok _ => .ok true
    | .error (.CommandError .KeyNotFound) => .ok false
    | .error e => .error e

/-- parse_cas_response, src/protocol/binary_packet.rs lines 139-149: the guarded
first match arm accepts KeyNotFound and KeyExists as false. -/
def parse_cas_response (pr : Except MemcachedError Response) :
    Except MemcachedError Bool :=
  match pr with
  | .error e => .error e
  | .ok r =>
    match r.err with
    | .error (.CommandError e) =>
      if e = .KeyNotFound ∨ e = .KeyExists then .ok false
      else .error (.CommandError e)
    | .ok _ => .ok true
    | .error e => .error e

/-- The response handling of BinaryProtocol::append, src/protocol/mod.rs lines
188-191: parse_response(...)?.err().map(drop). -/
def append_response (pr : Except MemcachedError Response) :
    Except MemcachedError Unit :=
  match pr with
  | .error e => .error e
  | .ok r =>
    match r.err with
    | .ok _ => .ok ()
    | .error e => .error e

/-- The response handling of BinaryProtocol::prepend, src/protocol/mod.rs lines
229-231: parse_response(...).map(drop) — unlike append, the err() status check is
absent, so the status field is never consulted. -/
def prepend_response (pr : Except MemcachedError Response) :
    Except MemcachedError Unit :=
  match pr with
  | .error e => .error e
  | .ok _ => .ok ()

theorem fromStatus_eq_KeyNotFound (s : Nat) :
    CommandError.fromStatus s = .KeyNotFound ↔ s = 1 := by
  unfold CommandError.fromStatus
  split_ifs with h1 h2 h3 h4 h6 h32 <;> simp_all

theorem fromStatus_eq_KeyExists (s : Nat) :
    CommandError.fromStatus s = .KeyExists ↔ s = 2 := by
  unfold CommandError.fromStatus
  split_ifs with h1 h2 h3 h4 h6 h32 <;> simp_all

theorem parse_delete_char (r : Response) :
    parse_delete_response (.ok r) =
      if r.header.vbucketIdOrStatus = 0 then .ok true
      else if r.header.vbucketIdOrStatus = 1 then .ok false
      else .error (.CommandError (.fromStatus r.header.vbucketIdOrStatus)) := by
  by_cases h0 : r.header.vbucketIdOrStatus = 0
  · simp [parse_delete_response, Response.err, OK_STATUS, h0]
  · rcases hfs : CommandError.fromStatus r.header.vbucketIdOrStatus with
      _ | _ | _ | _ | _ | _ | c | _
    all_goals first
      | (have hs1 : r.header.vbucketIdOrStatus = 1 :=
           (fromStatus_eq_KeyNotFound _).mp hfs
         simp [parse_delete_response, Response.err, OK_STATUS,
           CommandError.fromStatus, h0, hs1])
      | (have hs1 : r.header.vbucketIdOrStatus ≠ 1 := by
           intro h
           rw [h] at hfs
           simp [CommandError.fromStatus] at hfs
         simp [parse_delete_response, Response.err, OK_STATUS, h0, hs1, hfs])

theorem parse_touch_char (r : Response) :
    parse_touch_response (.ok r) =
      if r.header.vbucketIdOrStatus = 0 then .ok true
      else if r.header.vbucketIdOrStatus = 1 then .ok false
      else .error (.CommandError (.fromStatus r.header.vbucketIdOrStatus)) := by
  by_cases h0 : r.header.vbucketIdOrStatus = 0
  · simp [parse_touch_response, Response.err, OK_STATUS, h0]
  · rcases hfs : CommandError.fromStatus r.header.vbucketIdOrStatus with
      _ | _ | _ | _ | _ | _ | c | _
    all_goals first
      | (have hs1 : r.header.vbucketIdOrStatus = 1 :=
           (fromStatus_eq_KeyNotFound _).mp hfs
         simp [parse_touch_response, Response.err, OK_STATUS,
           CommandError.fromStatus, h0, hs1])
      | (have hs1 : r.header.vbucketIdOrStatus ≠ 1 := by
           intro h
           rw [h] at hfs
           simp [CommandError.fromStatus] at hfs
         simp [parse_touch_response, Response.err, OK_STATUS, h0, hs1, hfs])

theorem parse_cas_char (r : Response) :
    parse_cas_response (.ok r) =
      if r.header.vbucketIdOrStatus = 0 then .ok true
      else if r.header.vbucketIdOrStatus = 1 ∨ r.header.vbucketIdOrStatus = 2
        then .ok false
      else .error (.CommandError (.fromStatus r.header.vbucketIdOrStatus)) := by
  by_cases h0 : r.header.vbucketIdOrStatus = 0
  · simp [parse_cas_response, Response.err, OK_STATUS, h0]
  · rcases hfs : CommandError.fromStatus r.header.vbucketIdOrStatus with
      _ | _ | _ | _ | _ | _ | c | _
    all_goals first
      | (have hs1 : r.header.vbucketIdOrStatus = 1 :=
           (fromStatus_eq_KeyNotFound _).mp hfs
         simp [parse_cas_response, Response.err, OK_STATUS,
           CommandError.fromStatus, h0, hs1])
      | (have hs2 : r.header.vbucketIdOrStatus = 2 :=
           (fromStatus_eq_KeyExists _).mp hfs
         simp [parse_cas_response, Response.err, OK_STATUS,
           CommandError.fromStatus, h0, hs2])
      | (have hs1 : r.header.vbucketIdOrStatus ≠ 1 := by
           intro h
           rw [h] at hfs
           simp [CommandError.fromStatus] at hfs
         have hs2 : r.header.vbucketIdOrStatus ≠ 2 := by
           intro h
           rw [h] at hfs
           simp [CommandError.fromStatus] at hfs
         simp [parse_cas_response, Response.err, OK_STATUS, h0, hs1, hs2, hfs])

theorem parse_get_notfound {α : Type}
    (decode : List Nat → Nat → Option Nat → Except MemcachedError α)
    (r : Response) (h1 : r.header.vbucketIdOrStatus = 1) :
    parse_get_response decode (.ok r) = .ok none := by
  simp [parse_get_response, Response.err, OK_STATUS, CommandError.fromStatus, h1]

theorem parse_get_success {α : Type}
    (decode : List Nat → Nat → Option Nat → Except MemcachedError α)
    (r : Response) (flags : Nat) (v : α)
    (h0 : r.header.vbucketIdOrStatus = 0)
    (hf : readU32Flags r.extras = .ok flags)
    (hd : decode r.value flags (some r.header.cas) = .ok v) :
    parse_get_response decode (.ok r) = .ok (some v) := by
  simp [parse_get_response, Response.err, OK_STATUS, h0, hf, hd]

theorem parse_get_error {α : Type}
    (decode : List Nat → Nat → Option Nat → Except MemcachedError α)
    (r : Response) (h0 : r.header.vbucketIdOrStatus ≠ 0)
    (h1 : r.header.vbucketIdOrStatus ≠ 1) :
    parse_get_response decode (.ok r) =
      .error (.CommandError (.fromStatus r.header.vbucketIdOrStatus)) := by
  rcases hfs : CommandError.fromStatus r.header.vbucketIdOrStatus with
    _ | _ | _ | _ | _ | _ | c | _
  all_goals first
    | (exact absurd ((fromStatus_eq_KeyNotFound _).mp hfs) h1)
    | (simp [parse_get_response, Response.err, OK_STATUS, h0, hfs])

theorem parse_get_none_status {α : Type}
    (decode : List Nat → Nat → Option Nat → Except MemcachedError α)
    (r : Response) (h : parse_get_response decode (.ok r) = .ok none) :
    r.header.vbucketIdOrStatus = 1 := by
  by_cases h1 : r.header.vbucketIdOrStatus = 1
  · exact h1
  · by_cases h0 : r.header.vbucketIdOrStatus = 0
    · rcases hf : readU32Flags r.extras with e | flags
      · simp [parse_get_response, Response.err, OK_STATUS, h0, hf] at h
      · rcases hd : decode r.value flags (some r.header.cas) with e | v
        · simp [parse_get_response, Response.err, OK_STATUS, h0, hf, hd] at h
        · simp [parse_get_response, Response.err, OK_STATUS, h0, hf, hd] at h
    · rw [parse_get_error decode r h0 h1] at h
      simp at h

/-- C4: confirmed.  For every parsed response: get yields None exactly on the
KeyNotFound status (0x1) and Some(value) on a successful status; delete and
touch yield false exactly on KeyNotFound and true exactly on success; cas yields
false exactly on KeyNotFound or KeyExists (0x2) and true exactly on success; and
in all four parsers every other non-OK status propagates as the CommandError of
the status table, never as a boolean or None. -/
theorem c4_lenient_verbs {α : Type}
    (decode : List Nat → Nat → Option Nat → Except MemcachedError α)
    (r : Response) :
    (parse_get_response decode (.ok r) = .ok none ↔
      r.header.vbucketIdOrStatus = 1) ∧
    (∀ flags v, r.header.vbucketIdOrStatus = 0 →
      readU32Flags r.extras = .ok flags →
      decode r.value flags (some r.header.cas) = .ok v →
      parse_get_response decode (.ok r) = .ok (some v)) ∧
    (r.header.vbucketIdOrStatus ≠ 0 → r.header.vbucketIdOrStatus ≠ 1 →
      parse_get_response decode (.ok r) =
        .error (.CommandError (.fromStatus r.header.vbucketIdOrStatus))) ∧
    (parse_delete_response (.ok r) = .ok false ↔
      r.header.vbucketIdOrStatus = 1) ∧
    (parse_delete_response (.ok r) = .ok true ↔
      r.header.vbucketIdOrStatus = 0) ∧
    (r.header.vbucketIdOrStatus ≠ 0 → r.header.vbucketIdOrStatus ≠ 1 →
      parse_delete_response (.ok r) =
        .error (.CommandError (.fromStatus r.header.vbucketIdOrStatus))) ∧
    (parse_touch_response (.ok r) = .ok false ↔
      r.header.vbucketIdOrStatus = 1) ∧
    (parse_touch_response (.ok r) = .ok true ↔
      r.header.vbucketIdOrStatus = 0) ∧
    (r.header.vbucketIdOrStatus ≠ 0 → r.header.vbucketIdOrStatus ≠ 1 →
      parse_touch_response (.ok r) =
        .error (.CommandError (.fromStatus r.header.vbucketIdOrStatus))) ∧
    (parse_cas_response (.ok r) = .ok false ↔
      (r.header.vbucketIdOrStatus = 1 ∨ r.header.vbucketIdOrStatus = 2)) ∧
    (parse_cas_response (.ok r) = .ok true ↔
      r.header.vbucketIdOrStatus = 0) ∧
    (r.header.vbucketIdOrStatus ≠ 0 → r.header.vbucketIdOrStatus ≠ 1 →
      r.header.vbucketIdOrStatus ≠ 2 →
      parse_cas_response (.ok r) =
        .error (.CommandError (.fromStatus r.header.vbucketIdOrStatus))) := by
  refine ⟨⟨parse_get_none_status decode r, parse_get_notfound decode r⟩,
    fun flags v h0 hf hd => parse_get_success decode r flags v h0 hf hd,
    parse_get_error decode r, ?_, ?_, ?_, ?_, ?_, ?_, ?_, ?_, ?_⟩
  all_goals first
    | rw [parse_delete_char]
    | rw [parse_touch_char]
    | rw [parse_cas_char]
  all_goals by_cases h0 : r.header.vbucketIdOrStatus = 0
  all_goals by_cases h1 : r.header.vbucketIdOrStatus = 1
  all_goals try by_cases h2 : r.header.vbucketIdOrStatus = 2
  all_goals simp [h0, h1]
  all_goals simp [h2]

/-- FromMemcachedValueExt for (Vec u8, u32, Option u64),
src/client/values/from_value.rs lines 18-22: the conversion used by gets. -/
def from_memcached_value_raw (value : List Nat) (flags : Nat) (cas : Option Nat) :
    Except MemcachedError (List Nat × Nat × Option Nat) :=
  .ok (value, flags, cas)

/-- A concrete KeyNotFound (status 0x1) response for the C4 witness. -/
def c4Resp : Response :=
  { header := { magic := 0x81, opcode := 0, keyLength := 0, extrasLength := 0,
                dataType := 0, vbucketIdOrStatus := 1, totalBodyLength := 0,
                opq := 0, cas := 0 },
    key := [], extras := [], value := [] }

/-- Witness for C4: on a concrete KeyNotFound response, get yields None and
delete and cas yield false. -/
theorem c4_lenient_verbs_witness :
    parse_get_response from_memcached_value_raw (.ok c4Resp) = .ok none ∧
    parse_delete_response (.ok c4Resp) = .ok false ∧
    parse_cas_response (.ok c4Resp) = .ok false := by
  refine ⟨(c4_lenient_verbs from_memcached_value_raw c4Resp).1.mpr (by decide),
    (c4_lenient_verbs from_memcached_value_raw c4Resp).2.2.2.1.mpr (by decide),
    (c4_lenient_verbs from_memcached_value_raw c4Resp).2.2.2.2.2.2.2.2.2.1.mpr
      (Or.inl (by decide))⟩

/-- A concrete KeyNotFound (status 0x1) response for the C5 evaluation. -/
def c5Resp : Response :=
  { header := { magic := 0x81, opcode := 0x0f, keyLength := 0, extrasLength := 0,
                dataType := 0, vbucketIdOrStatus := 1, totalBodyLength := 0,
                opq := 0, cas := 0 },
    key := [], extras := [], value := [] }

/-- C5: refuted for prepend.  append checks the response status through err() and
turns the KeyNotFound status into an error, but prepend omits the err() call
(src/protocol/mod.rs line 230) and returns success on the very same non-OK
response. -/
theorem c5_prepend_ignores_status :
    append_response (.ok c5Resp) = .error (.CommandError .KeyNotFound) ∧
    prepend_response (.ok c5Resp) = .ok () := by
  exact ⟨by decide, by decide⟩

/-- The entry type collected by gets: (value bytes, flags, cas). -/
abbrev GetsVal : Type := List Nat × Nat × Option Nat

/-- The result HashMap of parse_gets_response, modeled as a lookup function. -/
def GetsMap : Type := String → Option GetsVal

/-- HashMap::new. -/
def GetsMap.empty : GetsMap := fun _ => none

/-- HashMap::insert: add or replace the binding of k. -/
def GetsMap.insert (m : GetsMap) (k : String) (v : GetsVal) : GetsMap :=
  fun x => if x = k then some v else m x

/-- The loop body of parse_gets_response, src/protocol/binary_packet.rs lines
183-199, one constructor case per early return of the source: the fuel argument
counts the remaining iterations of the for loop over 0..=max_responses and the
stream is the list of parse_response outcomes; the second component counts the
responses read.  The argument dk models String::from_utf8 on the key bytes. -/
def parse_gets_go (dk : List Nat → Except MemcachedError String) :
    Nat → GetsMap → List (Except MemcachedError Response) →
    Except MemcachedError GetsMap × Nat
  | 0, _, _ =>
    (.error (.ServerError (.BadResponse ("Expected end of gets response"))), 0)
  | _ + 1, _, [] => (.error (.IOError ("failed to fill whole buffer")), 1)
  | fuel + 1, acc, pr :: rest =>
    match pr with
    | .error e => (.error e, 1)
    | .ok r =>
      match r.err with
      | .error e => (.error e, 1)
      | .ok r2 =>
        if r2.header.opcode = 0x0a then (.ok acc, 1)
        else
          match readU32Flags r2.extras with
          | .error e => (.error e, 1)
          | .ok flags =>
            match dk r2.key with
            | .error e => (.error e, 1)
            | .ok key =>
              match from_memcached_value_raw r2.value flags
                  (some r2.header.cas) with
              | .error e => (.error e, 1)
              | .ok v =>
                let next := parse_gets_go dk fuel (acc.insert key v) rest
                (next.1, next.2 + 1)

/-- parse_gets_response, src/protocol/binary_packet.rs lines 178-201: run the
loop for the 0..=max_responses iterations starting from the empty map. -/
def parse_gets_response (dk : List Nat → Except MemcachedError String)
    (max_responses : Nat) (stream : List (Except MemcachedError Response)) :
    Except MemcachedError GetsMap × Nat :=
  parse_gets_go dk (max_responses + 1) GetsMap.empty stream

/-- A response that one loop pass of parse_gets_response turns into the map
entry named key: OK status, not a Noop, at least four extras bytes for the
flags read, and key bytes that decode to key. -/
def GoodEntry (dk : List Nat → Except MemcachedError String)
    (r : Response) (key : String) : Prop :=
  r.header.vbucketIdOrStatus = 0 ∧ r.header.opcode ≠ 0x0a ∧
  4 ≤ r.extras.length ∧ dk r.key = .ok key

/-- The map entry built from a non-Noop response. -/
def entryVal (r : Response) : GetsVal :=
  (r.value, fromBytesBE (r.extras.take 4), some r.header.cas)

theorem parse_gets_go_reads_le (dk : List Nat → Except MemcachedError String) :
    ∀ fuel acc stream, (parse_gets_go dk fuel acc stream).2 ≤ fuel := by
  intro fuel
  induction fuel with
  | zero =>
    intro acc stream
    cases stream <;> simp [parse_gets_go]
  | succ n ih =>
    intro acc stream
    cases stream with
    | nil => simp [parse_gets_go]
    | cons pr rest =>
      cases pr with
      | error e => simp [parse_gets_go]
      | ok r =>
        rcases h : r.err with e | r2
        · simp [parse_gets_go, h]
        · by_cases hop : r2.header.opcode = 0x0a
          · simp [parse_gets_go, h, hop]
          · rcases hf : readU32Flags r2.extras with e | flags
            · simp [parse_gets_go, h, hop, hf]
            · rcases hk : dk r2.key with e | key
              · simp [parse_gets_go, h, hop, hf, hk]
              · simp [parse_gets_go, h, hop, hf, hk, from_memcached_value_raw]
                exact ih _ _

theorem parse_gets_go_noop (dk : List Nat → Except MemcachedError String)
    (noopR : Response) (rest : List (Except MemcachedError Response))
    (hstat : noopR.header.vbucketIdOrStatus = 0)
    (hop : noopR.header.opcode = 0x0a) :
    ∀ rs keys, List.Forall₂ (GoodEntry dk) rs keys →
    ∀ fuel acc, rs.length < fuel →
      parse_gets_go dk fuel acc (rs.map .ok ++ .ok noopR :: rest) =
        (.ok ((rs.zip keys).foldl
          (fun m p => m.insert p.2 (entryVal p.1)) acc), rs.length + 1) := by
  intro rs keys hfa
  induction hfa with
  | nil =>
    intro fuel acc hlt
    obtain ⟨f, rfl⟩ : ∃ f, fuel = f + 1 := ⟨fuel - 1, by omega⟩
    simp [parse_gets_go, Response.err, OK_STATUS, hstat, hop]
  | @cons a b l₁ l₂ hg htail ih =>
    intro fuel acc hlt
    obtain ⟨f, rfl⟩ : ∃ f, fuel = f + 1 := ⟨fuel - 1, by omega⟩
    obtain ⟨h0, hop2, hext, hdk⟩ := hg
    have herr : a.err = .ok a := by simp [Response.err, OK_STATUS, h0]
    have hf : readU32Flags a.extras = .ok (fromBytesBE (a.extras.take 4)) := by
      simp [readU32Flags, hext]
    have hrec := ih f (acc.insert b (entryVal a)) (by simp at hlt; omega)
    simp only [List.map_cons, List.cons_append, parse_gets_go, herr, hf, hdk,
      hop2, if_neg, from_memcached_value_raw]
    simp only [entryVal] at hrec
    simp [hrec, entryVal]

theorem parse_gets_go_overflow (dk : List Nat → Except MemcachedError String) :
    ∀ rs keys, List.Forall₂ (GoodEntry dk) rs keys →
    ∀ rest acc, parse_gets_go dk rs.length acc (rs.map .ok ++ rest) =
      (.error (.ServerError (.BadResponse ("Expected end of gets response"))),
       rs.length) := by
  intro rs keys hfa
  induction hfa with
  | nil =>
    intro rest acc
    simp [parse_gets_go]
  | @cons a b l₁ l₂ hg htail ih =>
    intro rest acc
    obtain ⟨h0, hop2, hext, hdk⟩ := hg
    have herr : a.err = .ok a := by simp [Response.err, OK_STATUS, h0]
    have hf : readU32Flags a.extras = .ok (fromBytesBE (a.extras.take 4)) := by
      simp [readU32Flags, hext]
    have hrec := ih rest (acc.insert b (entryVal a))
    simp only [entryVal] at hrec
    simp only [List.map_cons, List.cons_append, List.length_cons, parse_gets_go,
      herr, hf, hdk, hop2, if_neg, from_memcached_value_raw]
    simp [hrec]

/-- C2: confirmed.  For a key list of length n the multi-get read loop performs
at most n + 1 response reads; a run of successfully parsed non-Noop responses
followed by a Noop (opcode 0x0a) terminates the loop successfully with exactly
one inserted (key, (value, flags, cas)) entry per non-Noop response; and n + 1
successfully parsed non-Noop responses exhaust the loop bound and fail with the
Expected-end-of-gets-response error instead of truncating. -/
theorem c2_multi_get_loop (dk : List Nat → Except MemcachedError String)
    (n : Nat) :
    (∀ stream, (parse_gets_response dk n stream).2 ≤ n + 1) ∧
    (∀ rs keys noopR rest,
      List.Forall₂ (GoodEntry dk) rs keys →
      rs.length ≤ n →
      noopR.header.vbucketIdOrStatus = 0 →
      noopR.header.opcode = 0x0a →
      parse_gets_response dk n (rs.map .ok ++ .ok noopR :: rest) =
        (.ok ((rs.zip keys).foldl
          (fun m p => m.insert p.2 (entryVal p.1)) GetsMap.empty),
         rs.length + 1)) ∧
    (∀ rs keys rest,
      List.Forall₂ (GoodEntry dk) rs keys →
      rs.length = n + 1 →
      parse_gets_response dk n (rs.map .ok ++ rest) =
        (.error (.ServerError (.BadResponse ("Expected end of gets response"))),
         n + 1)) := by
  refine ⟨fun stream => parse_gets_go_reads_le dk (n + 1) GetsMap.empty stream,
    ?_, ?_⟩
  · intro rs keys noopR rest hfa hlen hstat hop
    exact parse_gets_go_noop dk noopR rest hstat hop rs keys hfa (n + 1)
      GetsMap.empty (by omega)
  · intro rs keys rest hfa hlen
    have h := parse_gets_go_overflow dk rs keys hfa rest GetsMap.empty
    rw [hlen] at h
    exact h

/-- A key-decoding function for the C2 witness. -/
def c2Dk : List Nat → Except MemcachedError String :=
  fun _ => .ok ("k")

/-- A concrete non-Noop OK response carrying value [104, 105], flags 9
and cas 7, for the C2 witness. -/
def c2Resp : Response :=
  { header := { magic := 0x81, opcode := 0, keyLength := 1, extrasLength := 4,
                dataType := 0, vbucketIdOrStatus := 0, totalBodyLength := 7,
                opq := 0, cas := 7 },
    key := [107], extras := [0, 0, 0, 9], value := [104, 105] }

/-- A concrete Noop response for the C2 witness. -/
def c2Noop : Response :=
  { header := { magic := 0x81, opcode := 0x0a, keyLength := 0, extrasLength := 0,
                dataType := 0, vbucketIdOrStatus := 0, totalBodyLength := 0,
                opq := 0, cas := 0 },
    key := [], extras := [], value := [] }

/-- Witness for C2: one entry response followed by a Noop, with key count 1,
terminates after two reads with the single expected entry. -/
theorem c2_multi_get_loop_witness :
    parse_gets_response c2Dk 1 ([c2Resp].map .ok ++ .ok c2Noop :: []) =
      (.ok (([c2Resp].zip ["k"]).foldl
        (fun m p => m.insert p.2 (entryVal p.1)) GetsMap.empty), 2) := by
  exact (c2_multi_get_loop c2Dk 1).2.1 [c2Resp] ["k"] c2Noop []
    (List.Forall₂.cons ⟨rfl, by decide, by decide, rfl⟩ List.Forall₂.nil)
    (by decide) rfl rfl

/-- Little-endian encoding of n into w bytes (the bincode fixint length prefix). -/
def toBytesLE : Nat → Nat → List Nat
  | 0, _ => []
  | w + 1, n => n % 256 :: toBytesLE w (n / 256)

/-- bincode::serialize of a Rust String under the default configuration: the
8-byte little-endian length prefix followed by the UTF-8 bytes. -/
def bincode_serialize_string (bytes : List Nat) : List Nat :=
  toBytesLE 8 bytes.length ++ bytes

/-- value.to_string() for bool: the UTF-8 bytes of true / false. -/
def bool_to_string_bytes : Bool → List Nat
  | true => [116, 114, 117, 101]
  | false => [102, 97, 108, 115, 101]

/-- serialize_bytes, src/protocol/parse.rs lines 15-23, monomorphized at
T = bool: parse_as_str lists bool, so the value becomes value.to_string(),
is bincode-serialized, and the first 8 bytes (the length prefix) are skipped. -/
def serialize_bytes_bool (b : Bool) : List Nat :=
  (bincode_serialize_string (bool_to_string_bytes b)).drop 8

/-- bincode::deserialize::<bool>: one byte, 0 is false and 1 is true, anything
else is ErrorKind::InvalidBoolEncoding, an empty input is end-of-file. -/
def bincode_deserialize_bool (bytes : List Nat) : Except MemcachedError Bool :=
  match bytes with
  | [] => .error (.ParseError (.Bincode .Eof))
  | 0 :: _ => .ok false
  | 1 :: _ => .ok true
  | b :: _ => .error (.ParseError (.Bincode (.InvalidBoolEncoding b)))

/-- deserialize_bytes, src/protocol/parse.rs lines 26-41, monomorphized at
T = bool: can_as_str::<bool>() holds, so buf is rebuilt as the 8-byte
little-endian length prefix followed by the value bytes; try_parse_number
(lines 44-61) does not list bool among its numeric types, so the call falls
through to bincode::deserialize::<bool>(&buf). -/
def deserialize_bytes_bool (bytes : List Nat) : Except MemcachedError Bool :=
  bincode_deserialize_bool (toBytesLE 8 bytes.length ++ bytes)

/-- C6: refuted for bool.  serialize_bytes(true) produces the decimal-string
bytes of true, but deserialize_bytes::<bool> prefixes them with the 8-byte
little-endian length (leading byte 4, resp. 5 for false) and hands the buffer to
the bincode bool decoder, which rejects any leading byte other than 0 or 1 — the
round trip therefore always fails for bool, with a parse error. -/
theorem c6_bool_round_trip_fails :
    serialize_bytes_bool true = [116, 114, 117, 101] ∧
    serialize_bytes_bool false = [102, 97, 108, 115, 101] ∧
    deserialize_bytes_bool (serialize_bytes_bool true) =
      .error (.ParseError (.Bincode (.InvalidBoolEncoding 4))) ∧
    deserialize_bytes_bool (serialize_bytes_bool false) =
      .error (.ParseError (.Bincode (.InvalidBoolEncoding 5))) := by
  exact ⟨by decide, by decide, by decide, by decide⟩

/-- Client::get_connection, src/client/mod.rs lines 469-472: the shard index of
a key is hash_function(key) mod the number of connection pools. -/
def get_connection (hash_function : String → Nat) (connections_len : Nat)
    (key : String) : Nat :=
  hash_function key % connections_len

/-- The per-shard key lists built by the partition loop of Client::gets,
src/client/mod.rs lines 409-413: the list held at index i of con_keys, with the
keys in input order. -/
def gets_partition (hash_function : String → Nat) (n : Nat) :
    List String → Nat → List String
  | [], _ => []
  | k :: ks, i =>
    if get_connection hash_function n k = i
    then k :: gets_partition hash_function n ks i
    else gets_partition hash_function n ks i

theorem gets_partition_count (h : String → Nat) (n : Nat) (keys : List String)
    (k : String) (i : Nat) :
    (gets_partition h n keys i).count k =
      if get_connection h n k = i then keys.count k else 0 := by
  induction keys with
  | nil => simp [gets_partition]
  | cons a ks ih =>
    simp only [gets_partition]
    by_cases hk : k = a
    · subst hk
      by_cases ha : get_connection h n k = i
      · simp [ha, List.count_cons, ih]
      · simp [ha, List.count_cons, ih]
    · by_cases ha : get_connection h n a = i
      · simp [ha, List.count_cons, hk, ih]
      · simp [ha, List.count_cons, hk, ih]

/-- C7: confirmed.  With n ≥ 1 shards, every single-key operation addresses
shard hash_function(key) mod n (a pure function of the key, so identical across
repeated calls), the index is in range, and the gets partition gives each key
multiplicity equal to its input multiplicity in exactly the shard list of its
own index and multiplicity zero in every other list: no key sits in two
partitions and the partitions cover the input. -/
theorem c7_sharding (h : String → Nat) (n : Nat) (hn : 1 ≤ n)
    (keys : List String) (k : String) :
    get_connection h n k = h k % n ∧
    get_connection h n k < n ∧
    (∀ i, (gets_partition h n keys i).count k =
      if get_connection h n k = i then keys.count k else 0) ∧
    (∀ i, k ∈ gets_partition h n keys i → i = get_connection h n k) ∧
    (k ∈ keys → k ∈ gets_partition h n keys (get_connection h n k)) := by
  refine ⟨rfl, Nat.mod_lt _ (by omega), gets_partition_count h n keys k,
    ?_, ?_⟩
  · intro i hmem
    by_contra hne
    have hc := gets_partition_count h n keys k i
    rw [if_neg (fun he => hne he.symm)] at hc
    exact absurd (List.count_pos_iff.mpr hmem) (by omega)
  · intro hk
    have hc := gets_partition_count h n keys k (get_connection h n k)
    rw [if_pos rfl] at hc
    exact List.count_pos_iff.mp (by rw [hc]; exact List.count_pos_iff.mpr hk)

/-- A concrete hash function (byte length of the key) for the C7 witness. -/
def c7Hash : String → Nat := fun s => s.utf8ByteSize

/-- Witness for C7: with two shards and keys a, ab, the key ab lands in the
partition of its own shard index, which is in range. -/
theorem c7_sharding_witness :
    get_connection c7Hash 2 ("ab") < 2 ∧
    ("ab" ∈ gets_partition c7Hash 2 ["a", "ab"] (get_connection c7Hash 2 ("ab"))) := by
  refine ⟨(c7_sharding c7Hash 2 (by decide) ["a", "ab"] ("ab")).2.1, ?_⟩
  exact (c7_sharding c7Hash 2 (by decide) ["a", "ab"] ("ab")).2.2.2.2
    (by decide)

/-- check_key_len, src/client/check.rs lines 3-9: keys longer than 250 bytes
are refused with ClientError::KeyTooLong.  key.len() on a Rust &str is its
UTF-8 byte length. -/
def check_key_len (key : String) : Except MemcachedError Unit :=
  if 250 < key.utf8ByteSize then .error (.ClientError .KeyTooLong)
  else .ok ()

/-- The shared shape of every single-key Client operation (src/client/mod.rs:
get line 94, set 111, add 183, replace 213, append 240, prepend 261, delete 285,
increment 304, decrement 327, touch 353, cas 451): check_key_len runs first and
only the continuation op ever touches the connection.  The argument sent is the
byte log of the connection: on a failed check it is returned unchanged, so no
bytes are written. -/
def client_dispatch {α : Type} (key : String)
    (op : List Nat → Except MemcachedError α × List Nat) (sent : List Nat) :
    Except MemcachedError α × List Nat :=
  match check_key_len key with
  | .error e => (.error e, sent)
  | .ok _ => op sent

/-- The all-keys-first check of Client::gets, src/client/mod.rs lines 402-404. -/
def check_keys : List String → Except MemcachedError Unit
  | [] => .ok ()
  | k :: ks =>
    match check_key_len k with
    | .error e => .error e
    | .ok _ => check_keys ks

/-- Client::gets, src/client/mod.rs lines 398-420: every key is length-checked
before any network call. -/
def client_gets_dispatch {α : Type} (keys : List String)
    (op : List Nat → Except MemcachedError α × List Nat) (sent : List Nat) :
    Except MemcachedError α × List Nat :=
  match check_keys keys with
  | .error e => (.error e, sent)
  | .ok _ => op sent

/-- C8: confirmed.  Key validation succeeds exactly on keys of at most 250
bytes, longer keys fail with ClientError::KeyTooLong, and since every client
operation runs the check before its network continuation, a failed check
returns with the connection byte log untouched; gets checks all keys first in
the same way. -/
theorem c8_key_length {α : Type} (key : String)
    (op : List Nat → Except MemcachedError α × List Nat) (sent : List Nat) :
    (check_key_len key = .ok () ↔ key.utf8ByteSize ≤ 250) ∧
    (250 < key.utf8ByteSize →
      check_key_len key = .error (.ClientError .KeyTooLong)) ∧
    (250 < key.utf8ByteSize →
      client_dispatch key op sent = (.error (.ClientError .KeyTooLong), sent)) ∧
    (key.utf8ByteSize ≤ 250 → client_dispatch key op sent = op sent) ∧
    (∀ keys e, check_keys keys = .error e →
      client_gets_dispatch keys op sent = (.error e, sent)) := by
  by_cases hlen : 250 < key.utf8ByteSize
  · refine ⟨?_, ?_, ?_, ?_, ?_⟩
    · simp [check_key_len, hlen]
    · intro _
      simp [check_key_len, hlen]
    · intro _
      simp [client_dispatch, check_key_len, hlen]
    · intro hle
      omega
    · intro keys e he
      simp [client_gets_dispatch, he]
  · refine ⟨?_, ?_, ?_, ?_, ?_⟩
    · simp [check_key_len, hlen]
      omega
    · intro hgt
      omega
    · intro hgt
      omega
    · intro _
      simp [client_dispatch, check_key_len, hlen]
    · intro keys e he
      simp [client_gets_dispatch, he]

/-- A continuation for the C8 witness that would append a byte to the
connection log if it ran. -/
def c8Op : List Nat → Except MemcachedError Nat × List Nat :=
  fun sent => (.ok 0, sent ++ [1])

/-- Witness for C8: a 250-byte key passes the check, and a 251-byte key makes
the dispatched operation fail with KeyTooLong while writing nothing. -/
theorem c8_key_length_witness :
    check_key_len (String.mk (List.replicate 250 'a')) = .ok () ∧
    client_dispatch (String.mk (List.replicate 251 'a')) c8Op [] =
      (.error (.ClientError .KeyTooLong), []) := by
  refine ⟨(c8_key_length (String.mk (List.replicate 250 'a')) c8Op []).1.mpr
    (by decide), ?_⟩
  exact (c8_key_length (String.mk (List.replicate 251 'a')) c8Op []).2.2.1
    (by decide)

/-- PacketHeader::write, src/protocol/binary_packet.rs lines 64-75: the 24
header bytes in field order, every multi-byte integer big-endian. -/
def PacketHeader.writeBytes (h : PacketHeader) : List Nat :=
  toBytesBE 1 h.magic ++ toBytesBE 1 h.opcode ++ toBytesBE 2 h.keyLength ++
  toBytesBE 1 h.extrasLength ++ toBytesBE 1 h.dataType ++
  toBytesBE 2 h.vbucketIdOrStatus ++ toBytesBE 4 h.totalBodyLength ++
  toBytesBE 4 h.opq ++ toBytesBE 8 h.cas

/-- The UTF-8 bytes of an ASCII string. -/
def ascii (s : String) : List Nat :=
  s.data.map Char.toNat

/-- BinaryProtocol::auth, src/protocol/mod.rs lines 16-34: the request bytes of
the SASL PLAIN exchange — header with opcode StartAuth (0x21), key PLAIN, and
body NUL username NUL password. -/
def auth_request_bytes (username password : List Nat) : List Nat :=
  let key := ascii ("PLAIN")
  PacketHeader.writeBytes
    { magic := 0x80, opcode := 0x21, keyLength := key.length,
      extrasLength := 0, dataType := 0, vbucketIdOrStatus := 0,
      totalBodyLength := key.length + username.length + password.length + 2,
      opq := 0, cas := 0 } ++ key ++ (0 :: (username ++ 0 :: password))

/-- Manager::connect for ConnectionManager, src/connection.rs lines 114-123:
the bytes written during connection construction.  The function tests
url.has_authority() && !url.username().is_empty() && url.password().is_some(),
but the body of that conditional is entirely commented out, so nothing is
written in either case. -/
def manager_connect_sent (hasAuthority : Bool) (username : String)
    (password : Option String) : List Nat :=
  if hasAuthority && (username != "") && password.isSome then [] else []

/-- C9: refuted by the code.  Connection construction writes no bytes at all —
in particular no StartAuth request — even for a credentialed URL, because the
auth call in Manager::connect is commented out; the auth routine itself, were it
called, would send the PLAIN-keyed packet with the NUL username NUL password
body shown here. -/
theorem c9_auth_never_performed :
    manager_connect_sent true ("user") (some ("pass")) = [] ∧
    auth_request_bytes (ascii ("user")) (ascii ("pass")) =
      [0x80, 0x21, 0, 5, 0, 0, 0, 0, 0, 0, 0, 15,
       0, 0, 0, 0, 0, 0, 0, 0, 0, 0, 0, 0,
       80, 76, 65, 73, 78,
       0, 117, 115, 101, 114, 0, 112, 97, 115, 115] := by
  exact ⟨by decide, by decide⟩

/-- CounterExtras, src/protocol/binary_packet.rs lines 56-61. -/
structure CounterExtras where
  amount : Nat
  initial_value : Nat
  expiration : Nat
  deriving DecidableEq

/-- The CounterExtras built by BinaryProtocol::increment and decrement,
src/protocol/mod.rs lines 257-261 and 280-284: initial_value and expiration are
the constants 0. -/
def counter_extras (amount : Nat) : CounterExtras :=
  { amount := amount, initial_value := 0, expiration := 0 }

/-- The three extras writes of increment and decrement, src/protocol/mod.rs
lines 263-265 and 287-289: write_u64 amount, write_u64 initial_value,
write_u32 expiration. -/
def counter_extras_bytes (e : CounterExtras) : List Nat :=
  toBytesBE 8 e.amount ++ toBytesBE 8 e.initial_value ++
  toBytesBE 4 e.expiration

/-- The bytes sent by BinaryProtocol::increment, src/protocol/mod.rs lines
248-269: header with opcode 0x05, extras_length 20 and total_body_length
20 + key length, then the extras, then the key. -/
def increment_request_bytes (key : List Nat) (amount : Nat) : List Nat :=
  PacketHeader.writeBytes
    { magic := 0x80, opcode := 0x05, keyLength := key.length,
      extrasLength := 20, dataType := 0, vbucketIdOrStatus := 0,
      totalBodyLength := 20 + key.length, opq := 0, cas := 0 } ++
  counter_extras_bytes (counter_extras amount) ++ key

/-- The bytes sent by BinaryProtocol::decrement, src/protocol/mod.rs lines
271-292: identical to increment except for opcode 0x06. -/
def decrement_request_bytes (key : List Nat) (amount : Nat) : List Nat :=
  PacketHeader.writeBytes
    { magic := 0x80, opcode := 0x06, keyLength := key.length,
      extrasLength := 20, dataType := 0, vbucketIdOrStatus := 0,
      totalBodyLength := 20 + key.length, opq := 0, cas := 0 } ++
  counter_extras_bytes (counter_extras amount) ++ key

theorem toBytesBE_length (w n : Nat) : (toBytesBE w n).length = w := by
  induction w generalizing n with
  | zero => simp [toBytesBE]
  | succ m ih => simp [toBytesBE, ih]

/-- C10: confirmed.  For every key and amount, increment and decrement build
CounterExtras with initial_value 0 and expiration 0, and the request extras are
exactly 20 bytes: the 8 big-endian bytes of the amount, then a zero u64, then a
zero u32. -/
theorem c10_counter_extras_zero (key : List Nat) (amount : Nat) :
    (counter_extras amount).initial_value = 0 ∧
    (counter_extras amount).expiration = 0 ∧
    counter_extras_bytes (counter_extras amount) =
      toBytesBE 8 amount ++ List.replicate 8 0 ++ List.replicate 4 0 ∧
    (counter_extras_bytes (counter_extras amount)).length = 20 ∧
    increment_request_bytes key amount =
      PacketHeader.writeBytes
        { magic := 0x80, opcode := 0x05, keyLength := key.length,
          extrasLength := 20, dataType := 0, vbucketIdOrStatus := 0,
          totalBodyLength := 20 + key.length, opq := 0, cas := 0 } ++
      (toBytesBE 8 amount ++ List.replicate 8 0 ++ List.replicate 4 0) ++ key ∧
    decrement_request_bytes key amount =
      PacketHeader.writeBytes
        { magic := 0x80, opcode := 0x06, keyLength := key.length,
          extrasLength := 20, dataType := 0, vbucketIdOrStatus := 0,
          totalBodyLength := 20 + key.length, opq := 0, cas := 0 } ++
      (toBytesBE 8 amount ++ List.replicate 8 0 ++ List.replicate 4 0) ++ key := by
  have hz8 : toBytesBE 8 0 = List.replicate 8 0 := by decide
  have hz4 : toBytesBE 4 0 = List.replicate 4 0 := by decide
  have hext : counter_extras_bytes (counter_extras amount) =
      toBytesBE 8 amount ++ List.replicate 8 0 ++ List.replicate 4 0 := by
    simp [counter_extras_bytes, counter_extras, hz8, hz4]
  refine ⟨rfl, rfl, hext, ?_, ?_, ?_⟩
  · rw [hext]
    simp [toBytesBE_length]
  · simp [increment_request_bytes, hext]
  · simp [decrement_request_bytes, hext]
